import Mathlib

/-!
# Verification of the Lectra study-pipeline application

Shallow embedding of the application's core logic:

* `withRetry` — the resilient reasoning client's retry/backoff wrapper
  (`services/geminiService.ts`, part_003 lines 15-32);
* `adaptivePrompt` — the adaptive quiz-regeneration directive
  (`generateQuiz`, part_003 lines 119-147);
* `runPipeline` / `handleStartQuiz` — the pipeline orchestrator
  (`App.tsx`, part_005 lines 33-105);
* the quiz session state machine of `QuizView` (part_001 lines 13-61);
* the flashcard navigation of `FlashcardsView` (part_000 lines 14-26).

Asynchronous service calls are modelled by passing their outcomes (or the
per-attempt outcome function) as explicit parameters; `Math.random()` is
modelled by an explicit jitter function.  React `useState` state is modelled
as records transformed by pure functions, one per event handler.
-/

namespace Lectra

/-- A JavaScript error value as inspected by this code base: only the
optional `message` field is ever read (`err.message?.includes(...)`). -/
structure JsError where
  message : Option String
deriving Repr, DecidableEq

/-- Test that `pat` is a prefix of `s`, structurally on character lists. -/
def isPrefixOfL : List Char → List Char → Bool
  | [], _ => true
  | _ :: _, [] => false
  | c :: cs, d :: ds => c = d && isPrefixOfL cs ds

/-- Test that `pat` occurs contiguously somewhere in `s`. -/
def strIncludesL (pat : List Char) : List Char → Bool
  | [] => isPrefixOfL pat []
  | c :: rest => isPrefixOfL pat (c :: rest) || strIncludesL pat rest

/-- JS `String.prototype.includes`: `pat` occurs contiguously in `s` (the
empty needle is always contained). -/
def strIncludes (s pat : String) : Bool :=
  strIncludesL pat.data s.data

/-- part_003 line 22 (and the identical test at part_005 line 56):
`err.message?.includes("429") || err.message?.includes("RESOURCE_EXHAUSTED")`.
A missing message (`undefined`) is falsy. -/
def isQuotaError (e : JsError) : Bool :=
  match e.message with
  | none => false
  | some m => strIncludes m "429" || strIncludes m "RESOURCE_EXHAUSTED"

/-! Section: resilient reasoning client, `withRetry` (part_003 lines 15-32)

`fn i` is the outcome of the `i`-th call of the wrapped thunk (the service is
non-deterministic, so successive attempts may differ); `jitter i` models the
value of `Math.random() * 1000` drawn before the `i`-th backoff.  The result
pairs the final outcome (returned value or thrown error) with the list of
backoff waits actually slept, in order. -/

/-- The loop `for (let i = 0; i < maxRetries; i++)` of `withRetry`, entered at
index `i`.  On an error, the JS guard `isQuotaError && i < maxRetries - 1`
decides between sleeping `Math.pow(2, i) * 1000 + Math.random() * 1000` and
continuing, or rethrowing at once; for `i < maxRetries` the JS number test
`i < maxRetries - 1` is the same as `i + 1 < maxRetries`.  The fall-through
`throw lastError` after the loop is reachable only when the loop body never
ran (`maxRetries = 0`), where `lastError` is still `undefined`: modelled as an
error with no message. -/
def withRetryGo {α : Type} (fn : ℕ → Except JsError α) (jitter : ℕ → ℚ)
    (maxRetries i : ℕ) : Except JsError α × List ℚ :=
  if _h : i < maxRetries then
    match fn i with
    | .ok a => (.ok a, [])
    | .error e =>
      if isQuotaError e ∧ i + 1 < maxRetries then
        let rest := withRetryGo fn jitter maxRetries (i + 1)
        (rest.1, ((2 : ℚ) ^ i * 1000 + jitter i) :: rest.2)
      else (.error e, [])
  else (.error ⟨none⟩, [])
termination_by maxRetries - i

/-- part_003 line 15: `withRetry(fn, maxRetries = 3)`. -/
def withRetry {α : Type} (fn : ℕ → Except JsError α) (jitter : ℕ → ℚ)
    (maxRetries : ℕ := 3) : Except JsError α × List ℚ :=
  withRetryGo fn jitter maxRetries 0

/-! Section: adaptive quiz directive (`generateQuiz`, part_003 lines 119-147) -/

/-- The `adaptiveContext` argument of `generateQuiz`: `{ score, total }`. -/
structure AdaptiveContext where
  score : ℕ
  total : ℕ
deriving Repr, DecidableEq

/-- The "easier" directive string built at part_003 line 124. -/
def easierPrompt (score total : ℕ) : String :=
  "The student answered " ++ toString score ++ "/" ++ toString total ++
    " questions incorrectly. Regenerate 5 easier questions focusing on fundamentals."

/-- The "advanced" directive string built at part_003 line 126. -/
def advancedPrompt (score total : ℕ) : String :=
  "The student answered " ++ toString score ++ "/" ++ toString total ++
    " correctly. Generate 5 advanced-level application-based questions (scenario-based)."

/-- part_003 lines 121-128: the `adaptivePrompt` variable.  It starts empty;
with a context, `score < total / 2` (JS exact division, modelled in `ℚ`)
selects the easier directive, otherwise `score === total` selects the
advanced one, otherwise the prompt stays empty. -/
def adaptivePrompt (ctx : Option AdaptiveContext) : String :=
  match ctx with
  | none => ""
  | some c =>
    if (c.score : ℚ) < (c.total : ℚ) / 2 then easierPrompt c.score c.total
    else if c.score = c.total then advancedPrompt c.score c.total
    else ""

/-! Section: flashcard navigation (`FlashcardsView`, part_000 lines 14-26)

`currentIdx` is a JS integer; JS `%` is the remainder with the sign of the
dividend, which agrees with `Int.emod` on the non-negative dividends arising
here (`i + 1 ≥ 0` and `i - 1 + L ≥ 0` for `0 ≤ i` and `1 ≤ L`). -/

namespace FlashcardsView

/-- part_000 line 17: `setCurrentIdx((prev) => (prev + 1) % flashcards.length)`. -/
def handleNext (flashcardsLength : ℕ) (prev : ℤ) : ℤ :=
  (prev + 1) % (flashcardsLength : ℤ)

/-- part_000 line 24:
`setCurrentIdx((prev) => (prev - 1 + flashcards.length) % flashcards.length)`. -/
def handlePrev (flashcardsLength : ℕ) (prev : ℤ) : ℤ :=
  (prev - 1 + (flashcardsLength : ℤ)) % (flashcardsLength : ℤ)

end FlashcardsView

/-! Section: data model (`types.ts`, part_004) -/

/-- Model of `QuizQuestion` (part_004). -/
structure QuizQuestion where
  question_id : String
  question : String
  difficulty : ℕ
  options : List String
  correct_answer : String
  explanation : String
deriving Repr, DecidableEq

/-- Model of `QuizResponse` (part_004). -/
structure QuizResponse where
  quiz : List QuizQuestion
deriving Repr, DecidableEq

/-- Model of `SummaryResponse` (part_004). -/
structure SummaryResponse where
  overview : String
  key_takeaways : List String
  detailed_summary : String
deriving Repr, DecidableEq

/-- The entity `type` enumeration of `Entity` (part_004). -/
inductive EntityType where
  | concept
  | person
  | theory
  | method
deriving Repr, DecidableEq

/-- Model of `Entity` (part_004). -/
structure Entity where
  id : String
  type : EntityType
  name : String
deriving Repr, DecidableEq

/-- Model of `Relationship` (part_004). -/
structure Relationship where
  source : String
  target : String
  relation : String
deriving Repr, DecidableEq

/-- Model of `KnowledgeGraphResponse` (part_004). -/
structure KnowledgeGraphResponse where
  entities : List Entity
  relationships : List Relationship
deriving Repr, DecidableEq

/-- Model of `Subtopic` (part_004). -/
structure Subtopic where
  title : String
  key_concepts : List String
deriving Repr, DecidableEq

/-- Model of `Flashcard` (part_004). -/
structure Flashcard where
  id : String
  front : String
  back : String
deriving Repr, DecidableEq

/-- Model of `Topic` (part_004); `flashcards` is an optional field. -/
structure Topic where
  topic_id : String
  title : String
  summary : String
  difficulty_level : ℕ
  importance_score : ℕ
  subtopics : List Subtopic
  flashcards : Option (List Flashcard)
deriving Repr, DecidableEq

/-- Model of `TopicExtractionResponse` (part_004). -/
structure TopicExtractionResponse where
  topics : List Topic
deriving Repr, DecidableEq

/-- part_003 line 174: `generateQuiz` returns `JSON.parse(response.text || '{}')`
directly: no post-parse validator inspects the parsed quiz payload (in
particular nothing compares `correct_answer` against `options`), so the
structurally-parsed payload is passed through unchanged. -/
def generateQuizResult (parsed : QuizResponse) : QuizResponse := parsed

/-! Section: quiz session state machine (`QuizView`, part_001) -/

namespace QuizView

/-- The `useState` cells of `QuizView` (part_001 lines 13-18). -/
structure State where
  currentIdx : ℕ
  selectedOption : Option String
  isAnswered : Bool
  score : ℕ
  isFinishing : Bool
  isAdapting : Bool
deriving Repr, DecidableEq

/-- The initial component state: `useState(0)`, `useState(null)`,
`useState(false)`, `useState(0)`, `useState(false)`, `useState(false)`. -/
def initState : State :=
  { currentIdx := 0, selectedOption := none, isAnswered := false,
    score := 0, isFinishing := false, isAdapting := false }

/-- JS truthiness of a `string | null` value: `null` and `""` are falsy. -/
def truthyStr : Option String → Bool
  | none => false
  | some s => !(s == "")

/-- part_001 lines 22-25 `handleOptionClick`: ignored once answered,
otherwise records the clicked option as the tentative selection. -/
def handleOptionClick (option : String) (s : State) : State :=
  if s.isAnswered then s else { s with selectedOption := some option }

/-- part_001 lines 27-33 `handleSubmit`: `if (!selectedOption) return`
(both `null` and the empty string are falsy); then `setIsAnswered(true)`,
and the score is incremented exactly when the selection equals
`currentQuestion.correct_answer` (`===`, exact string match).
`currentQuestion` is `questions[currentIdx]`; an out-of-range index would
already have crashed the render, so that case leaves the score unchanged. -/
def handleSubmit (questions : List QuizQuestion) (s : State) : State :=
  match s.selectedOption with
  | none => s
  | some sel =>
    if sel = "" then s
    else
      let answered := { s with isAnswered := true }
      match questions.get? s.currentIdx with
      | some q =>
        if sel = q.correct_answer then { answered with score := answered.score + 1 }
        else answered
      | none => answered

/-- part_001 lines 35-43 `handleNext`: advance to the next question while
`currentIdx < questions.length - 1` (JS integer arithmetic, modelled in `ℤ`),
clearing the selection and the answered flag; from the last index switch to
the results screen (`setIsFinishing(true)`). -/
def handleNext (questions : List QuizQuestion) (s : State) : State :=
  if (s.currentIdx : ℤ) < (questions.length : ℤ) - 1 then
    { s with currentIdx := s.currentIdx + 1, selectedOption := none, isAnswered := false }
  else { s with isFinishing := true }

/-- part_001 lines 45-61 `handleAdaptiveRetake`, given the outcome of the
awaited `generateQuiz` call.  On success the whole question list is replaced
(`onRetake(resp.quiz)` propagates to the `questions` prop via
`setCurrentQuiz`) and every local cell is reset; on failure only
`console.error` runs and the `finally` clause clears `isAdapting`. -/
def handleAdaptiveRetake (outcome : Except JsError QuizResponse)
    (questions : List QuizQuestion) (s : State) : List QuizQuestion × State :=
  match outcome with
  | .ok resp =>
    (resp.quiz,
      { currentIdx := 0, selectedOption := none, isAnswered := false,
        score := 0, isFinishing := false, isAdapting := false })
  | .error _ => (questions, { s with isAdapting := false })

/-- A quiz session: the `questions` prop together with the component state. -/
structure Session where
  questions : List QuizQuestion
  view : State
deriving Repr, DecidableEq

/-- The user-triggerable events of `QuizView`. -/
inductive Event where
  | select (option : String)
  | submit
  | next
  | retake (outcome : Except JsError QuizResponse)

/-- One UI event step.  The guards record when the corresponding control is
actually rendered and enabled: option buttons and the submit button exist
only on the question screen (`isFinishing = false`), option buttons are
`disabled={isAnswered}`, the submit button is rendered only while
`!isAnswered` and is `disabled={!selectedOption}`, the next button only
while `isAnswered`, and the retake button only on the results screen
(`isFinishing = true`) and `disabled={isAdapting}`.  The question screen
renders `questions[currentIdx]`, so these events require that index to be
in range. -/
inductive Step : Session → Event → Session → Prop where
  | select {st : Session} {q : QuizQuestion} (opt : String)
      (hf : st.view.isFinishing = false) (ha : st.view.isAnswered = false)
      (hq : st.questions.get? st.view.currentIdx = some q) (ho : opt ∈ q.options) :
      Step st (.select opt) ⟨st.questions, handleOptionClick opt st.view⟩
  | submit {st : Session} {q : QuizQuestion}
      (hf : st.view.isFinishing = false) (ha : st.view.isAnswered = false)
      (hq : st.questions.get? st.view.currentIdx = some q)
      (hs : truthyStr st.view.selectedOption = true) :
      Step st .submit ⟨st.questions, handleSubmit st.questions st.view⟩
  | next {st : Session} {q : QuizQuestion}
      (hf : st.view.isFinishing = false) (ha : st.view.isAnswered = true)
      (hq : st.questions.get? st.view.currentIdx = some q) :
      Step st .next ⟨st.questions, handleNext st.questions st.view⟩
  | retake {st : Session} (outcome : Except JsError QuizResponse)
      (hf : st.view.isFinishing = true) (hd : st.view.isAdapting = false) :
      Step st (.retake outcome)
        ⟨(handleAdaptiveRetake outcome st.questions st.view).1,
          (handleAdaptiveRetake outcome st.questions st.view).2⟩

/-- States reachable from a freshly mounted `QuizView` by UI events. -/
inductive Reachable : Session → Prop where
  | init (questions : List QuizQuestion) : Reachable ⟨questions, initState⟩
  | step {st st' : Session} {ev : Event} :
      Reachable st → Step st ev st' → Reachable st'

/-- The inductive invariant behind the score bound: the score never exceeds
the number of questions already answered, and the current index is in range
except in the pristine empty-deck state. -/
def ScoreInv (st : Session) : Prop :=
  st.view.score ≤ st.view.currentIdx + (if st.view.isAnswered then 1 else 0) ∧
  (st.view.currentIdx < st.questions.length ∨
    (st.view.currentIdx = 0 ∧ st.view.score = 0 ∧ st.view.isAnswered = false))

/-- A demonstration question whose correct answer is its first option. -/
def demoQuestion : QuizQuestion :=
  { question_id := "q1", question := "Which?", difficulty := 1,
    options := ["A", "B"], correct_answer := "A", explanation := "since A" }

/-- A question that lists the empty string among its options and declares it
as the correct answer. -/
def emptyOptionQuestion : QuizQuestion :=
  { question_id := "q2", question := "Which?", difficulty := 1,
    options := ["", "B"], correct_answer := "", explanation := "since blank" }

/-- The session after selecting option "A" of `demoQuestion`. -/
def cexS1 : Session := ⟨[demoQuestion], handleOptionClick "A" initState⟩

/-- The session after submitting that (correct) selection. -/
def cexS2 : Session := ⟨[demoQuestion], handleSubmit [demoQuestion] cexS1.view⟩

/-- The session after advancing past the single question (the results screen). -/
def cexS3 : Session := ⟨[demoQuestion], handleNext [demoQuestion] cexS2.view⟩

/-- The session after a successful adaptive retake returning the same single question. -/
def cexS4 : Session :=
  ⟨(handleAdaptiveRetake (.ok ⟨[demoQuestion]⟩) [demoQuestion] cexS3.view).1,
    (handleAdaptiveRetake (.ok ⟨[demoQuestion]⟩) [demoQuestion] cexS3.view).2⟩

end QuizView

/-! Section: pipeline orchestrator (`App`, part_005) -/

/-- The `AppState` union (part_004). -/
inductive AppState where
  | IDLE
  | ANALYZING
  | TOPICS_VIEW
  | QUIZ_VIEW
  | KG_VIEW
  | SUMMARY_VIEW
  | FLASHCARDS_VIEW
deriving Repr, DecidableEq

/-- The `useState` cells of `App` that the pipeline and quiz start touch
(part_005 lines 20-28). -/
structure AppSt where
  lectureText : String
  appState : AppState
  topics : List Topic
  currentQuiz : List QuizQuestion
  kgData : Option KnowledgeGraphResponse
  summaryData : Option SummaryResponse
  selectedTopic : Option Topic
  loadingMsg : String
deriving Repr, DecidableEq

/-- The three pipeline stages, in their fixed order. -/
inductive Stage where
  | summary
  | knowledgeGraph
  | topics
deriving Repr, DecidableEq

/-- JS `String.prototype.trim`, structurally: strip leading and trailing
whitespace characters. -/
def jsTrim (s : String) : String :=
  ⟨((s.data.dropWhile Char.isWhitespace).reverse.dropWhile Char.isWhitespace).reverse⟩

/-- The rate-limit alert of part_005 lines 57-58. -/
def quotaAlert : String :=
  "API Quota Exceeded. Please wait a minute and try again. Switch to a paid key for higher limits."

/-- The generic failure alert of part_005 line 59. -/
def failAlert : String :=
  "Analysis failed. Please try again with different content."

/-- part_005 lines 56-59: the caught pipeline error is classified by the
same quota test as the retry helper, choosing the user-facing message. -/
def pipelineAlert (e : JsError) : String :=
  if isQuotaError e then quotaAlert else failAlert

/-- part_005 lines 33-62 `runPipeline`.  The three stage calls are modelled
by the functions `generateGeneralSummary`, `extractKnowledgeGraph` and
`extractTopics` from the input text to an outcome; since the orchestrator
awaits each call before issuing the next, the run is their sequential
composition.  The result is the final `App` state, the trace of stage calls
actually issued (stage tag paired with the argument passed), and the alert
raised on failure, if any.  Each `setX(...)` is a record update executed in
program order; the `catch` block only alerts and resets `appState` to
`IDLE` — it clears none of the artifact cells. -/
def runPipeline
    (generateGeneralSummary : String → Except JsError SummaryResponse)
    (extractKnowledgeGraph : String → Except JsError KnowledgeGraphResponse)
    (extractTopics : String → Except JsError TopicExtractionResponse)
    (text : String) (s : AppSt) : AppSt × List (Stage × String) × Option String :=
  if jsTrim text = "" then (s, [], none)
  else
    let s1 := { s with appState := .ANALYZING,
                       loadingMsg := "Distilling Core Intelligence..." }
    match generateGeneralSummary text with
    | .error e => ({ s1 with appState := .IDLE }, [(.summary, text)], some (pipelineAlert e))
    | .ok summaryResp =>
      let s2 := { s1 with summaryData := some summaryResp,
                          loadingMsg := "Mapping Semantic Relationships..." }
      match extractKnowledgeGraph text with
      | .error e =>
        ({ s2 with appState := .IDLE },
          [(.summary, text), (.knowledgeGraph, text)], some (pipelineAlert e))
      | .ok kgResp =>
        let s3 := { s2 with kgData := some kgResp,
                            loadingMsg := "Deconstructing Lecture Architecture..." }
        match extractTopics text with
        | .error e =>
          ({ s3 with appState := .IDLE },
            [(.summary, text), (.knowledgeGraph, text), (.topics, text)],
            some (pipelineAlert e))
        | .ok topicResp =>
          ({ s3 with topics := topicResp.topics, appState := .SUMMARY_VIEW },
            [(.summary, text), (.knowledgeGraph, text), (.topics, text)], none)

/-- part_005 lines 93-105 `handleStartQuiz`, given the outcome of the
awaited `generateQuiz` call for the chosen topic: on success the parsed
payload's `quiz` array becomes `currentQuiz` verbatim and the quiz view
opens; on failure the app falls back to the topics view. -/
def handleStartQuiz (generateQuiz : Topic → Except JsError QuizResponse)
    (topic : Topic) (s : AppSt) : AppSt :=
  let s1 := { s with appState := .ANALYZING,
                     loadingMsg :=
                       "Generating Mastery Assessment for \"" ++ topic.title ++ "\"...",
                     selectedTopic := some topic }
  match generateQuiz topic with
  | .ok resp => { s1 with currentQuiz := resp.quiz, appState := .QUIZ_VIEW }
  | .error _ => { s1 with appState := .TOPICS_VIEW }

/-- The pristine `App` state after mount (part_005 lines 20-28). -/
def initAppSt : AppSt :=
  { lectureText := "", appState := .IDLE, topics := [], currentQuiz := [],
    kgData := none, summaryData := none, selectedTopic := none, loadingMsg := "" }

/-- A demonstration summary artifact. -/
def demoSummary : SummaryResponse :=
  { overview := "O", key_takeaways := ["K"], detailed_summary := "D" }

/-- A demonstration topic. -/
def demoTopic : Topic :=
  { topic_id := "t1", title := "T1", summary := "S", difficulty_level := 1,
    importance_score := 1, subtopics := [], flashcards := none }

/-- A quiz payload whose single question declares a correct answer that is
not among its options. -/
def badQuizResponse : QuizResponse :=
  ⟨[{ question_id := "q3", question := "Which?", difficulty := 1,
      options := ["A", "B"], correct_answer := "C", explanation := "none fits" }]⟩

end Lectra

namespace Lectra

/-! Section: theorems -/

/-- Unfolding equation for one iteration of the `withRetry` loop. -/
theorem withRetryGo_eq {α : Type} (fn : ℕ → Except JsError α) (jitter : ℕ → ℚ)
    (maxRetries i : ℕ) :
    withRetryGo fn jitter maxRetries i =
      if i < maxRetries then
        match fn i with
        | .ok a => (.ok a, [])
        | .error e =>
          if isQuotaError e ∧ i + 1 < maxRetries then
            ((withRetryGo fn jitter maxRetries (i + 1)).1,
              ((2 : ℚ) ^ i * 1000 + jitter i) :: (withRetryGo fn jitter maxRetries (i + 1)).2)
          else (.error e, [])
      else (.error ⟨none⟩, []) := by
  by_cases hi : i < maxRetries
  · conv_lhs => rw [withRetryGo]
    simp only [dif_pos hi, if_pos hi]
  · conv_lhs => rw [withRetryGo]
    simp only [dif_neg hi, if_neg hi]

/-- A successful attempt returns at once with no further waiting. -/
theorem withRetryGo_ok {α : Type} {fn : ℕ → Except JsError α} {jitter : ℕ → ℚ}
    {maxRetries i : ℕ} {a : α} (h : i < maxRetries) (ha : fn i = .ok a) :
    withRetryGo fn jitter maxRetries i = (.ok a, []) := by
  rw [withRetryGo_eq, if_pos h, ha]

/-- A failing attempt that is not retried (not a quota error, or the last
allowed attempt) rethrows the error at once. -/
theorem withRetryGo_error_stop {α : Type} {fn : ℕ → Except JsError α} {jitter : ℕ → ℚ}
    {maxRetries i : ℕ} {e : JsError} (h : i < maxRetries) (he : fn i = .error e)
    (hstop : ¬ (isQuotaError e = true ∧ i + 1 < maxRetries)) :
    withRetryGo fn jitter maxRetries i = (.error e, []) := by
  rw [withRetryGo_eq, if_pos h, he]
  simp only [if_neg hstop]

/-- A quota failure before the last allowed attempt sleeps
`2 ^ i * 1000 + jitter i` and continues with the next attempt. -/
theorem withRetryGo_error_retry {α : Type} {fn : ℕ → Except JsError α} {jitter : ℕ → ℚ}
    {maxRetries i : ℕ} {e : JsError} (h : i < maxRetries) (he : fn i = .error e)
    (hq : isQuotaError e = true) (hlt : i + 1 < maxRetries) :
    withRetryGo fn jitter maxRetries i =
      ((withRetryGo fn jitter maxRetries (i + 1)).1,
        ((2 : ℚ) ^ i * 1000 + jitter i) :: (withRetryGo fn jitter maxRetries (i + 1)).2) := by
  rw [withRetryGo_eq, if_pos h, he]
  simp only [if_pos (And.intro hq hlt)]

/-- Every backoff wait is preceded by a rate-limited failure: if the `j`-th
wait was slept (counting from the entry index `i`), then attempt `i + j`
failed with a quota error. -/
theorem withRetryGo_delay_of_quota {α : Type} (fn : ℕ → Except JsError α)
    (jitter : ℕ → ℚ) :
    ∀ (k maxRetries i : ℕ), maxRetries - i ≤ k →
      ∀ j, j < (withRetryGo fn jitter maxRetries i).2.length →
        ∃ e, fn (i + j) = .error e ∧ isQuotaError e = true := by
  intro k
  induction k with
  | zero =>
    intro maxRetries i hk j hj
    have hni : ¬ i < maxRetries := by omega
    rw [withRetryGo_eq, if_neg hni] at hj
    simp at hj
  | succ k ih =>
    intro maxRetries i hk j hj
    by_cases hi : i < maxRetries
    · cases hfi : fn i with
      | ok a =>
        rw [withRetryGo_ok hi hfi] at hj
        simp at hj
      | error e =>
        by_cases hq : isQuotaError e = true ∧ i + 1 < maxRetries
        · rw [withRetryGo_error_retry hi hfi hq.1 hq.2] at hj
          simp only [List.length_cons] at hj
          cases j with
          | zero => exact ⟨e, by simpa using hfi, hq.1⟩
          | succ j' =>
            have := ih maxRetries (i + 1) (by omega) j' (by omega)
            obtain ⟨e', he', hq'⟩ := this
            exact ⟨e', by simpa [Nat.add_assoc, Nat.add_comm 1 j'] using he', hq'⟩
        · rw [withRetryGo_error_stop hi hfi hq] at hj
          simp at hj
    · rw [withRetryGo_eq, if_neg hi] at hj
      simp at hj

/-- The loop is driven only by the outcomes of the attempts it may make:
outcome functions agreeing below `maxRetries` give identical results. -/
theorem withRetryGo_congr {α : Type} (fn g : ℕ → Except JsError α) (jitter : ℕ → ℚ)
    (maxRetries : ℕ) (h : ∀ j, j < maxRetries → fn j = g j) :
    ∀ (k i : ℕ), maxRetries - i ≤ k →
      withRetryGo fn jitter maxRetries i = withRetryGo g jitter maxRetries i := by
  intro k
  induction k with
  | zero =>
    intro i hk
    have hni : ¬ i < maxRetries := by omega
    conv_lhs => rw [withRetryGo_eq]
    conv_rhs => rw [withRetryGo_eq]
    rw [if_neg hni, if_neg hni]
  | succ k ih =>
    intro i hk
    conv_lhs => rw [withRetryGo_eq]
    conv_rhs => rw [withRetryGo_eq]
    by_cases hi : i < maxRetries
    · rw [if_pos hi, if_pos hi, h i hi]
      cases g i with
      | ok a => rfl
      | error e =>
        by_cases hq : isQuotaError e = true ∧ i + 1 < maxRetries
        · simp only [if_pos hq, ih (i + 1) (by omega)]
        · simp only [if_neg hq]
    · rw [if_neg hi, if_neg hi]

/-- C3: the retry wrapper retries only rate-limited (quota) failures.  A
first-attempt failure whose message carries no quota marker is raised
immediately, with no retry and no backoff delay; and every backoff delay
that does occur was preceded by a rate-limited failure of the corresponding
attempt. -/
theorem withRetry_only_quota_retried {α : Type} (fn : ℕ → Except JsError α)
    (jitter : ℕ → ℚ) :
    (∀ e, fn 0 = .error e → isQuotaError e = false →
      withRetry fn jitter 3 = (.error e, [])) ∧
    (∀ i, i < (withRetry fn jitter 3).2.length →
      ∃ e, fn i = .error e ∧ isQuotaError e = true) := by
  constructor
  · intro e h0 hq
    exact withRetryGo_error_stop (by omega) h0 (by simp [hq])
  · intro i hi
    have := withRetryGo_delay_of_quota fn jitter 3 3 0 (by omega) i hi
    simpa using this

/-- Witness for C3: a first attempt failing with a non-quota message is
rethrown unchanged with no delays, and the (empty) delay list indeed admits
the quota characterisation vacuously. -/
theorem withRetry_only_quota_retried_witness :
    withRetry (fun _ => (.error ⟨some "boom"⟩ : Except JsError ℕ)) (fun _ => 0) 3 =
      (.error ⟨some "boom"⟩, []) :=
  (withRetry_only_quota_retried (fun _ => (.error ⟨some "boom"⟩ : Except JsError ℕ))
    (fun _ => 0)).1 ⟨some "boom"⟩ rfl (by decide)

/-- C4: with `base = 1000` and jitter drawn from `[0, 1000)`: two
rate-limited failures followed by a success return that success after
exactly the two backoff delays `base * 2 ^ 0 + jitter 0` and
`base * 2 ^ 1 + jitter 1`, each at least `base`; three rate-limited failures
re-raise the third error unchanged after the same two delays, and the
result never depends on any attempt beyond the third (no 4th attempt). -/
theorem withRetry_bound_spec {α : Type} (fn g : ℕ → Except JsError α)
    (jitter : ℕ → ℚ) (hj : ∀ i, 0 ≤ jitter i) :
    (∀ e0 e1 a, fn 0 = .error e0 → isQuotaError e0 = true →
      fn 1 = .error e1 → isQuotaError e1 = true → fn 2 = .ok a →
      withRetry fn jitter 3 =
        (.ok a, [(2 : ℚ) ^ 0 * 1000 + jitter 0, (2 : ℚ) ^ 1 * 1000 + jitter 1]) ∧
      ∀ d ∈ (withRetry fn jitter 3).2, (1000 : ℚ) ≤ d) ∧
    (∀ e0 e1 e2, fn 0 = .error e0 → isQuotaError e0 = true →
      fn 1 = .error e1 → isQuotaError e1 = true →
      fn 2 = .error e2 → isQuotaError e2 = true →
      withRetry fn jitter 3 =
        (.error e2, [(2 : ℚ) ^ 0 * 1000 + jitter 0, (2 : ℚ) ^ 1 * 1000 + jitter 1])) ∧
    ((∀ i, i < 3 → fn i = g i) → withRetry fn jitter 3 = withRetry g jitter 3) := by
  refine ⟨?_, ?_, ?_⟩
  · intro e0 e1 a h0 hq0 h1 hq1 h2
    have step2 : withRetryGo fn jitter 3 2 = (.ok a, []) :=
      withRetryGo_ok (by omega) h2
    have step1 : withRetryGo fn jitter 3 1 =
        (.ok a, [(2 : ℚ) ^ 1 * 1000 + jitter 1]) := by
      rw [withRetryGo_error_retry (by omega) h1 hq1 (by omega), step2]
    have step0 : withRetry fn jitter 3 =
        (.ok a, [(2 : ℚ) ^ 0 * 1000 + jitter 0, (2 : ℚ) ^ 1 * 1000 + jitter 1]) := by
      unfold withRetry
      rw [withRetryGo_error_retry (by omega) h0 hq0 (by omega), step1]
    refine ⟨step0, ?_⟩
    intro d hd
    rw [step0] at hd
    simp only [List.mem_cons, List.mem_singleton, List.not_mem_nil, or_false] at hd
    rcases hd with hd | hd <;> subst hd
    · have := hj 0
      norm_num
      linarith
    · have := hj 1
      norm_num
      linarith
  · intro e0 e1 e2 h0 hq0 h1 hq1 h2 hq2
    have step2 : withRetryGo fn jitter 3 2 = (.error e2, []) :=
      withRetryGo_error_stop (by omega) h2 (fun hc => absurd hc.2 (by omega))
    have step1 : withRetryGo fn jitter 3 1 =
        (.error e2, [(2 : ℚ) ^ 1 * 1000 + jitter 1]) := by
      rw [withRetryGo_error_retry (by omega) h1 hq1 (by omega), step2]
    unfold withRetry
    rw [withRetryGo_error_retry (by omega) h0 hq0 (by omega), step1]
  · intro h
    exact withRetryGo_congr fn g jitter 3 h 3 0 (by omega)

/-- C10: for every non-empty deck of length `L` and current index
`i ∈ [0, L)`, `handleNext` moves the index to `(i+1) mod L`, `handlePrev`
moves it to `(i-1+L) mod L`, both results stay in `[0, L)`, and
`handlePrev` after `handleNext` restores the original index. -/
theorem flashcards_nav_wraps (L : ℕ) (i : ℤ) (hL : 0 < L) (h0 : 0 ≤ i)
    (hi : i < (L : ℤ)) :
    FlashcardsView.handleNext L i = (i + 1) % (L : ℤ) ∧
    FlashcardsView.handlePrev L i = (i - 1 + (L : ℤ)) % (L : ℤ) ∧
    (0 ≤ FlashcardsView.handleNext L i ∧ FlashcardsView.handleNext L i < (L : ℤ)) ∧
    (0 ≤ FlashcardsView.handlePrev L i ∧ FlashcardsView.handlePrev L i < (L : ℤ)) ∧
    FlashcardsView.handlePrev L (FlashcardsView.handleNext L i) = i := by
  have hL' : (0 : ℤ) < (L : ℤ) := by exact_mod_cast hL
  have hLne : (L : ℤ) ≠ 0 := ne_of_gt hL'
  refine ⟨rfl, rfl, ⟨Int.emod_nonneg _ hLne, Int.emod_lt_of_pos _ hL'⟩,
    ⟨Int.emod_nonneg _ hLne, Int.emod_lt_of_pos _ hL'⟩, ?_⟩
  unfold FlashcardsView.handleNext FlashcardsView.handlePrev
  calc ((i + 1) % (L : ℤ) - 1 + (L : ℤ)) % (L : ℤ)
      = ((i + 1) - 1 + (L : ℤ)) % (L : ℤ) := by
        rw [Int.add_emod, Int.sub_emod, Int.emod_emod_of_dvd _ dvd_rfl,
          ← Int.sub_emod, ← Int.add_emod]
    _ = (i + 1 * (L : ℤ)) % (L : ℤ) := by ring_nf
    _ = i % (L : ℤ) := Int.add_mul_emod_self
    _ = i := Int.emod_eq_of_lt h0 hi

/-- Witness for C10 at `L = 3`, `i = 2`: `handleNext` wraps `2` to `0` and
`handlePrev` takes it back. -/
theorem flashcards_nav_wraps_witness :
    FlashcardsView.handleNext 3 2 = (2 + 1) % (3 : ℤ) ∧
    FlashcardsView.handlePrev 3 2 = (2 - 1 + (3 : ℤ)) % (3 : ℤ) ∧
    (0 ≤ FlashcardsView.handleNext 3 2 ∧ FlashcardsView.handleNext 3 2 < (3 : ℤ)) ∧
    (0 ≤ FlashcardsView.handlePrev 3 2 ∧ FlashcardsView.handlePrev 3 2 < (3 : ℤ)) ∧
    FlashcardsView.handlePrev 3 (FlashcardsView.handleNext 3 2) = 2 :=
  flashcards_nav_wraps 3 2 (by decide) (by decide) (by decide)

/-- C6: the adaptive regeneration directive.  `score < total / 2` (exact
division) yields the easier/fundamentals directive, `score = total` yields
the advanced/scenario-based directive, and otherwise the directive is empty
(neutral regeneration). -/
theorem adaptivePrompt_spec (score total : ℕ) :
    ((score : ℚ) < (total : ℚ) / 2 →
      adaptivePrompt (some ⟨score, total⟩) = easierPrompt score total) ∧
    (score = total →
      adaptivePrompt (some ⟨score, total⟩) = advancedPrompt score total) ∧
    (¬ ((score : ℚ) < (total : ℚ) / 2) → score ≠ total →
      adaptivePrompt (some ⟨score, total⟩) = "") := by
  refine ⟨fun h => ?_, fun h => ?_, fun h1 h2 => ?_⟩
  · simp only [adaptivePrompt, if_pos h]
  · subst h
    have hnot : ¬ ((score : ℚ) < (score : ℚ) / 2) := by
      have : (0 : ℚ) ≤ (score : ℚ) := by positivity
      intro hlt; linarith
    simp [adaptivePrompt, if_neg hnot]
  · simp only [adaptivePrompt, if_neg h1, if_neg h2]

/-- Witness for C6: `score=0,total=5` gives the easier directive,
`score=5,total=5` the advanced one, and `score=3,total=5` no directive. -/
theorem adaptivePrompt_spec_witness :
    adaptivePrompt (some ⟨0, 5⟩) = easierPrompt 0 5 ∧
    adaptivePrompt (some ⟨5, 5⟩) = advancedPrompt 5 5 ∧
    adaptivePrompt (some ⟨3, 5⟩) = "" :=
  ⟨(adaptivePrompt_spec 0 5).1 (by norm_num),
   (adaptivePrompt_spec 5 5).2.1 rfl,
   (adaptivePrompt_spec 3 5).2.2 (by norm_num) (by decide)⟩

/-- Shared computation lemma: a submit with a non-empty recorded selection
marks the question answered and adds 1 to the score exactly on an exact
match with the current question's correct answer. -/
theorem handleSubmit_eq (questions : List QuizQuestion) (s : QuizView.State)
    (sel : String) (q : QuizQuestion) (hsel : s.selectedOption = some sel)
    (hne : sel ≠ "") (hq : questions.get? s.currentIdx = some q) :
    QuizView.handleSubmit questions s =
      { s with isAnswered := true,
               score := s.score + (if sel = q.correct_answer then 1 else 0) } := by
  simp only [QuizView.handleSubmit, hsel, hq]
  rw [if_neg hne]
  by_cases hc : sel = q.correct_answer
  · simp [hc]
  · simp [hc]

/-- Counterexample to C7 as stated: in a Presenting state whose recorded
selection is the empty string — which is a listed option and moreover equals
the question's declared `correct_answer` — `handleSubmit` is a no-op, because
the JS guard `if (!selectedOption) return` treats the empty string as
falsy: the state does not move to Answered and the score is not incremented
despite the exact match. -/
theorem handleSubmit_empty_selection_cex :
    QuizView.handleSubmit [QuizView.emptyOptionQuestion]
        { QuizView.initState with selectedOption := some "" } =
      { QuizView.initState with selectedOption := some "" } ∧
    ({ QuizView.initState with selectedOption := some "" } : QuizView.State).isAnswered
      = false ∧
    "" ∈ QuizView.emptyOptionQuestion.options ∧
    QuizView.emptyOptionQuestion.correct_answer = "" :=
  ⟨rfl, rfl, by decide, rfl⟩

/-- C7, amended: `submit()` with no recorded selection, or with the
empty-string selection (falsy in JS), is a no-op; with a non-empty selection
in a Presenting state it sets `isAnswered` and increments the score by 1
exactly when the selection equals the current question's `correct_answer`
by exact string match. -/
theorem handleSubmit_spec (questions : List QuizQuestion) (s : QuizView.State) :
    (s.selectedOption = none → QuizView.handleSubmit questions s = s) ∧
    (s.selectedOption = some "" → QuizView.handleSubmit questions s = s) ∧
    (∀ sel q, s.selectedOption = some sel → sel ≠ "" → s.isAnswered = false →
      questions.get? s.currentIdx = some q →
      QuizView.handleSubmit questions s =
        { s with isAnswered := true,
                 score := s.score + (if sel = q.correct_answer then 1 else 0) }) := by
  refine ⟨fun h => ?_, fun h => ?_, fun sel q hsel hne _ hq => ?_⟩
  · simp [QuizView.handleSubmit, h]
  · simp [QuizView.handleSubmit, h]
  · exact handleSubmit_eq questions s sel q hsel hne hq

/-- Witness for C7 (amended): submitting the non-empty, correct selection
"A" on `demoQuestion` marks the question answered and adds 1 to the score. -/
theorem handleSubmit_spec_witness :
    QuizView.handleSubmit [QuizView.demoQuestion]
        { QuizView.initState with selectedOption := some "A" } =
      { QuizView.initState with
          selectedOption := some "A", isAnswered := true,
          score := QuizView.initState.score +
            (if "A" = QuizView.demoQuestion.correct_answer then 1 else 0) } :=
  (handleSubmit_spec [QuizView.demoQuestion]
      { QuizView.initState with selectedOption := some "A" }).2.2
    "A" QuizView.demoQuestion rfl (by decide) rfl rfl

/-- C9: `adaptiveRetake` from a completed session is atomic.  On success the
question sequence is replaced wholesale and the view resets to
`Presenting(0)` with score `0` and no recorded selection; on failure the
questions, score, index, selection, answered flag and completed flag are all
exactly as before (only the transient `isAdapting` spinner flag is cleared),
so with the spinner initially off the session is untouched verbatim. -/
theorem handleAdaptiveRetake_atomic (questions : List QuizQuestion)
    (s : QuizView.State) (hf : s.isFinishing = true) :
    (∀ resp, QuizView.handleAdaptiveRetake (.ok resp) questions s =
      (resp.quiz, QuizView.initState)) ∧
    (∀ e, QuizView.handleAdaptiveRetake (.error e) questions s =
      (questions, { s with isAdapting := false })) ∧
    (∀ e, s.isAdapting = false →
      QuizView.handleAdaptiveRetake (.error e) questions s = (questions, s)) := by
  refine ⟨fun resp => rfl, fun e => rfl, fun e hb => ?_⟩
  cases s
  simp only [QuizView.handleAdaptiveRetake]
  simp_all

/-- Witness for C9 at a concrete completed session: a successful retake
resets to the fresh state with the new questions; a failed retake returns
the session unchanged. -/
theorem handleAdaptiveRetake_atomic_witness :
    QuizView.handleAdaptiveRetake (.ok ⟨[QuizView.demoQuestion]⟩) []
        { QuizView.initState with isFinishing := true } =
      ([QuizView.demoQuestion], QuizView.initState) ∧
    QuizView.handleAdaptiveRetake (.error ⟨some "boom"⟩) []
        { QuizView.initState with isFinishing := true } =
      ([], { QuizView.initState with isFinishing := true }) :=
  ⟨(handleAdaptiveRetake_atomic [] { QuizView.initState with isFinishing := true }
      rfl).1 ⟨[QuizView.demoQuestion]⟩,
   (handleAdaptiveRetake_atomic [] { QuizView.initState with isFinishing := true }
      rfl).2.2 ⟨some "boom"⟩ rfl⟩

/-- Auxiliary for C8: every UI step preserves the score invariant. -/
theorem step_scoreInv {st st' : QuizView.Session} {ev : QuizView.Event}
    (hstep : QuizView.Step st ev st') (hinv : QuizView.ScoreInv st) :
    QuizView.ScoreInv st' := by
  obtain ⟨h1, h2⟩ := hinv
  cases hstep with
  | select opt hf ha hq ho =>
    have hview : QuizView.handleOptionClick opt st.view =
        { st.view with selectedOption := some opt } := by
      simp [QuizView.handleOptionClick, ha]
    unfold QuizView.ScoreInv
    rw [hview]
    exact ⟨h1, h2⟩
  | submit hf ha hq hs =>
    rename_i q
    have hidx : st.view.currentIdx < st.questions.length :=
      (List.get?_eq_some.mp hq).1
    cases hsel : st.view.selectedOption with
    | none => rw [hsel] at hs; simp [QuizView.truthyStr] at hs
    | some sel =>
      have hne : sel ≠ "" := by
        intro hemp
        rw [hsel, hemp] at hs
        simp [QuizView.truthyStr] at hs
      have h1' : st.view.score ≤ st.view.currentIdx := by
        rw [ha] at h1; simpa using h1
      unfold QuizView.ScoreInv
      rw [handleSubmit_eq st.questions st.view sel q hsel hne hq]
      refine ⟨?_, Or.inl hidx⟩
      by_cases hc : sel = q.correct_answer
      · simp [hc]; omega
      · simp [hc]; omega
  | next hf ha hq =>
    rename_i q
    have hidx : st.view.currentIdx < st.questions.length :=
      (List.get?_eq_some.mp hq).1
    have h1' : st.view.score ≤ st.view.currentIdx + 1 := by
      rw [ha] at h1; simpa using h1
    by_cases hlt : (st.view.currentIdx : ℤ) < (st.questions.length : ℤ) - 1
    · have hview : QuizView.handleNext st.questions st.view =
          { st.view with currentIdx := st.view.currentIdx + 1,
                         selectedOption := none, isAnswered := false } := by
        simp [QuizView.handleNext, hlt]
      unfold QuizView.ScoreInv
      rw [hview]
      refine ⟨by simpa using h1', Or.inl ?_⟩
      show st.view.currentIdx + 1 < st.questions.length
      omega
    · have hview : QuizView.handleNext st.questions st.view =
          { st.view with isFinishing := true } := by
        simp [QuizView.handleNext, hlt]
      unfold QuizView.ScoreInv
      rw [hview]
      exact ⟨h1, Or.inl hidx⟩
  | retake outcome hf hd =>
    cases outcome with
    | ok resp =>
      unfold QuizView.ScoreInv
      exact ⟨Nat.zero_le _, Or.inr ⟨rfl, rfl, rfl⟩⟩
    | error e =>
      unfold QuizView.ScoreInv
      exact ⟨h1, h2⟩

/-- Auxiliary for C8: the score invariant holds in every reachable state. -/
theorem reachable_scoreInv {st : QuizView.Session} (h : QuizView.Reachable st) :
    QuizView.ScoreInv st := by
  induction h with
  | init questions =>
    exact ⟨by simp [QuizView.initState], Or.inr ⟨rfl, rfl, rfl⟩⟩
  | step _ hstep ih => exact step_scoreInv hstep ih

/-- Counterexample to C8 as stated: the score also changes through an
operation other than `submit()` — a successful `adaptiveRetake` resets it to
0.  Concretely, after select/submit/advance on a one-question deck the
session is reachable with score 1, and the retake step drops the score to 0
even though it is not a submit. -/
theorem retake_resets_score_cex :
    QuizView.Reachable QuizView.cexS3 ∧
    QuizView.Step QuizView.cexS3
      (.retake (.ok ⟨[QuizView.demoQuestion]⟩)) QuizView.cexS4 ∧
    QuizView.cexS3.view.score = 1 ∧ QuizView.cexS4.view.score = 0 := by
  refine ⟨?_, ?_, rfl, rfl⟩
  · exact QuizView.Reachable.step
      (QuizView.Reachable.step
        (QuizView.Reachable.step (QuizView.Reachable.init [QuizView.demoQuestion])
          (QuizView.Step.select "A" rfl rfl rfl (by decide)))
        (QuizView.Step.submit rfl rfl rfl rfl))
      (QuizView.Step.next rfl rfl rfl)
  · exact QuizView.Step.retake _ rfl rfl

/-- C8, amended: in every state reachable by UI events from a freshly
mounted quiz the score is between 0 and the (current) number of questions;
and along any single step the score is unchanged, or the step is a
`submit()` whose recorded selection exactly matches the current question's
`correct_answer` and the score grows by exactly 1, or the step is a
successful `adaptiveRetake` and the score resets to 0. -/
theorem quiz_score_spec :
    (∀ st : QuizView.Session, QuizView.Reachable st →
      st.view.score ≤ st.questions.length) ∧
    (∀ st ev st', QuizView.Step st ev st' →
      st'.view.score = st.view.score ∨
      (ev = QuizView.Event.submit ∧ st'.view.score = st.view.score + 1 ∧
        ∃ q, st.questions.get? st.view.currentIdx = some q ∧
          st.view.selectedOption = some q.correct_answer) ∨
      (∃ resp, ev = QuizView.Event.retake (.ok resp) ∧ st'.view.score = 0)) := by
  constructor
  · intro st hst
    obtain ⟨h1, h2⟩ := reachable_scoreInv hst
    rcases h2 with h2 | ⟨_, hz, _⟩
    · cases hb : st.view.isAnswered <;> rw [hb] at h1 <;> simp at h1 <;> omega
    · omega
  · intro st ev st' hstep
    cases hstep with
    | select opt hf ha hq ho =>
      left
      show (QuizView.handleOptionClick opt st.view).score = st.view.score
      simp [QuizView.handleOptionClick, ha]
    | submit hf ha hq hs =>
      rename_i q
      cases hsel : st.view.selectedOption with
      | none => rw [hsel] at hs; simp [QuizView.truthyStr] at hs
      | some sel =>
        have hne : sel ≠ "" := by
          intro hemp
          rw [hsel, hemp] at hs
          simp [QuizView.truthyStr] at hs
        have hview := handleSubmit_eq st.questions st.view sel q hsel hne hq
        by_cases hc : sel = q.correct_answer
        · right; left
          refine ⟨rfl, ?_, q, hq, by rw [hc]⟩
          show (QuizView.handleSubmit st.questions st.view).score = st.view.score + 1
          rw [hview]
          simp [hc]
        · left
          show (QuizView.handleSubmit st.questions st.view).score = st.view.score
          rw [hview]
          simp [hc]
    | next hf ha hq =>
      left
      show (QuizView.handleNext st.questions st.view).score = st.view.score
      unfold QuizView.handleNext
      by_cases hlt : (st.view.currentIdx : ℤ) < (st.questions.length : ℤ) - 1
      · rw [if_pos hlt]
      · rw [if_neg hlt]
    | retake outcome hf hd =>
      cases outcome with
      | ok resp =>
        right; right
        exact ⟨resp, rfl, rfl⟩
      | error e =>
        left
        rfl

/-- Witness for C8 (amended) at concrete inputs: the freshly mounted
one-question session satisfies the score bound, and the concrete select
step leaves the score unchanged. -/
theorem quiz_score_spec_witness :
    (QuizView.Session.mk [QuizView.demoQuestion] QuizView.initState).view.score ≤
      (QuizView.Session.mk [QuizView.demoQuestion] QuizView.initState).questions.length ∧
    (QuizView.cexS1.view.score =
        (QuizView.Session.mk [QuizView.demoQuestion] QuizView.initState).view.score ∨
      (QuizView.Event.select "A" = QuizView.Event.submit ∧
        QuizView.cexS1.view.score =
          (QuizView.Session.mk [QuizView.demoQuestion] QuizView.initState).view.score + 1 ∧
        ∃ q, ([QuizView.demoQuestion].get? QuizView.initState.currentIdx = some q ∧
          QuizView.initState.selectedOption = some q.correct_answer)) ∨
      (∃ resp, QuizView.Event.select "A" = QuizView.Event.retake (.ok resp) ∧
        QuizView.cexS1.view.score = 0)) :=
  ⟨quiz_score_spec.1 (QuizView.Session.mk [QuizView.demoQuestion] QuizView.initState)
      (QuizView.Reachable.init [QuizView.demoQuestion]),
   quiz_score_spec.2 (QuizView.Session.mk [QuizView.demoQuestion] QuizView.initState)
      (QuizView.Event.select "A") QuizView.cexS1
      (QuizView.Step.select "A" rfl rfl rfl (by decide))⟩

/-- Witness for C4 at concrete inputs: an attempt function failing with a
"429" message twice and then succeeding with 7, under zero jitter, returns
7 after exactly the delays 1000 and 2000, each at least 1000. -/
theorem withRetry_bound_spec_witness :
    withRetry (fun i => if i < 2 then (.error ⟨some "429"⟩ : Except JsError ℕ)
        else .ok 7) (fun _ => 0) 3 =
      (.ok 7, [(2 : ℚ) ^ 0 * 1000 + 0, (2 : ℚ) ^ 1 * 1000 + 0]) ∧
    ∀ d ∈ (withRetry (fun i => if i < 2 then (.error ⟨some "429"⟩ : Except JsError ℕ)
        else .ok 7) (fun _ => 0) 3).2, (1000 : ℚ) ≤ d :=
  (withRetry_bound_spec
      (fun i => if i < 2 then (.error ⟨some "429"⟩ : Except JsError ℕ) else .ok 7)
      (fun i => if i < 2 then (.error ⟨some "429"⟩ : Except JsError ℕ) else .ok 7)
      (fun _ => 0) (fun _ => le_refl 0)).1
    ⟨some "429"⟩ ⟨some "429"⟩ 7 rfl (by decide) rfl (by decide) rfl

/-- Counterexample to C1 as stated: from the pristine app state, a run whose
Summary stage succeeds and whose KnowledgeGraph stage fails with a generic
error does revert `appState` to `IDLE`, never invokes the Topics stage, and
raises the generic alert — but the summary artifact produced by the earlier
successful stage is NOT discarded: it is still stored in the final session
state (`summaryData` is `some`, not `none`). -/
theorem runPipeline_keeps_artifacts_cex :
    (runPipeline (fun _ => .ok demoSummary) (fun _ => .error ⟨some "boom"⟩)
        (fun _ => .ok ⟨[]⟩) "T" initAppSt).1.summaryData = some demoSummary ∧
    (runPipeline (fun _ => .ok demoSummary) (fun _ => .error ⟨some "boom"⟩)
        (fun _ => .ok ⟨[]⟩) "T" initAppSt).1.appState = AppState.IDLE ∧
    (runPipeline (fun _ => .ok demoSummary) (fun _ => .error ⟨some "boom"⟩)
        (fun _ => .ok ⟨[]⟩) "T" initAppSt).2.1 =
      [(Stage.summary, "T"), (Stage.knowledgeGraph, "T")] ∧
    (runPipeline (fun _ => .ok demoSummary) (fun _ => .error ⟨some "boom"⟩)
        (fun _ => .ok ⟨[]⟩) "T" initAppSt).2.2 = some failAlert :=
  ⟨rfl, rfl, rfl, rfl⟩

/-- C1, amended: any single stage failure aborts the run — later stages are
never invoked, `appState` reverts to `IDLE`, the failure classification is
surfaced as the quota or the generic alert, and the final state is `Ready`
(`SUMMARY_VIEW`) exactly when all three stages succeed, so no
partially-populated `Ready` state is observable — but artifacts from earlier
successful stages are retained in session state (merely not exposed through
`Ready`), not discarded. -/
theorem runPipeline_abort_spec
    (fS : String → Except JsError SummaryResponse)
    (fK : String → Except JsError KnowledgeGraphResponse)
    (fT : String → Except JsError TopicExtractionResponse)
    (text : String) (s : AppSt) (h : ¬ jsTrim text = "") :
    (∀ e, fS text = .error e →
      runPipeline fS fK fT text s =
        ({ s with appState := .IDLE,
                  loadingMsg := "Distilling Core Intelligence..." },
          [(.summary, text)], some (pipelineAlert e))) ∧
    (∀ sum e, fS text = .ok sum → fK text = .error e →
      runPipeline fS fK fT text s =
        ({ s with appState := .IDLE, summaryData := some sum,
                  loadingMsg := "Mapping Semantic Relationships..." },
          [(.summary, text), (.knowledgeGraph, text)], some (pipelineAlert e))) ∧
    (∀ sum kg e, fS text = .ok sum → fK text = .ok kg → fT text = .error e →
      runPipeline fS fK fT text s =
        ({ s with appState := .IDLE, summaryData := some sum, kgData := some kg,
                  loadingMsg := "Deconstructing Lecture Architecture..." },
          [(.summary, text), (.knowledgeGraph, text), (.topics, text)],
          some (pipelineAlert e))) ∧
    ((runPipeline fS fK fT text s).1.appState = .SUMMARY_VIEW ↔
      (∃ v, fS text = .ok v) ∧ (∃ v, fK text = .ok v) ∧ (∃ v, fT text = .ok v)) := by
  refine ⟨fun e he => ?_, fun sum e hsum hk => ?_, fun sum kg e hsum hk ht => ?_, ?_⟩
  · simp only [runPipeline, if_neg h, he]
  · simp only [runPipeline, if_neg h, hsum, hk]
  · simp only [runPipeline, if_neg h, hsum, hk, ht]
  · unfold runPipeline
    rw [if_neg h]
    cases hsum : fS text with
    | error e => simp [hsum]
    | ok sum =>
      cases hk : fK text with
      | error e => simp [hsum, hk]
      | ok kg =>
        cases ht : fT text with
        | error e => simp [hsum, hk, ht]
        | ok tp => simp [hsum, hk, ht]

/-- Witness for C1 (amended) at concrete inputs: with a succeeding Summary
stage and a KnowledgeGraph stage failing generically on text "T", the run
ends in `IDLE` with the generic alert, the Topics stage unissued, and the
summary artifact retained. -/
theorem runPipeline_abort_spec_witness :
    runPipeline (fun _ => .ok demoSummary) (fun _ => .error ⟨some "oops"⟩)
        (fun _ => .ok ⟨[demoTopic]⟩) "T" initAppSt =
      ({ initAppSt with appState := .IDLE, summaryData := some demoSummary,
                        loadingMsg := "Mapping Semantic Relationships..." },
        [(.summary, "T"), (.knowledgeGraph, "T")],
        some (pipelineAlert ⟨some "oops"⟩)) :=
  (runPipeline_abort_spec (fun _ => .ok demoSummary) (fun _ => .error ⟨some "oops"⟩)
      (fun _ => .ok ⟨[demoTopic]⟩) "T" initAppSt (by decide)).2.1
    demoSummary ⟨some "oops"⟩ rfl rfl

/-- C5: the orchestrator issues the stages in the fixed order Summary,
KnowledgeGraph, Topics, feeding every issued stage the same raw input text,
each awaited before the next is issued (the call trace is always a prefix of
the full in-order sequence); when all three succeed the session reaches
`SUMMARY_VIEW` with all three artifacts installed together; and the session
reaches `SUMMARY_VIEW` only if all three stages succeeded. -/
theorem runPipeline_sequence_spec
    (fS : String → Except JsError SummaryResponse)
    (fK : String → Except JsError KnowledgeGraphResponse)
    (fT : String → Except JsError TopicExtractionResponse)
    (text : String) (s : AppSt) (h : ¬ jsTrim text = "") :
    ((runPipeline fS fK fT text s).2.1 = [(.summary, text)] ∨
     (runPipeline fS fK fT text s).2.1 =
       [(.summary, text), (.knowledgeGraph, text)] ∨
     (runPipeline fS fK fT text s).2.1 =
       [(.summary, text), (.knowledgeGraph, text), (.topics, text)]) ∧
    (∀ sum kg tp, fS text = .ok sum → fK text = .ok kg → fT text = .ok tp →
      runPipeline fS fK fT text s =
        ({ s with appState := .SUMMARY_VIEW, summaryData := some sum,
                  kgData := some kg, topics := tp.topics,
                  loadingMsg := "Deconstructing Lecture Architecture..." },
          [(.summary, text), (.knowledgeGraph, text), (.topics, text)], none)) ∧
    ((runPipeline fS fK fT text s).1.appState = .SUMMARY_VIEW →
      ∃ sum kg tp, fS text = .ok sum ∧ fK text = .ok kg ∧ fT text = .ok tp) := by
  refine ⟨?_, fun sum kg tp hsum hk ht => ?_, fun hview => ?_⟩
  · unfold runPipeline
    rw [if_neg h]
    cases fS text with
    | error e => simp
    | ok sum =>
      cases fK text with
      | error e => simp
      | ok kg =>
        cases fT text with
        | error e => simp
        | ok tp => simp
  · simp only [runPipeline, if_neg h, hsum, hk, ht]
  · revert hview
    unfold runPipeline
    rw [if_neg h]
    cases hsum : fS text with
    | error e => intro hview; simp at hview
    | ok sum =>
      cases hk : fK text with
      | error e => intro hview; simp at hview
      | ok kg =>
        cases ht : fT text with
        | error e => intro hview; simp at hview
        | ok tp => intro _; exact ⟨sum, kg, tp, rfl, rfl, rfl⟩

/-- Witness for C5 at concrete inputs: with all three stages succeeding on
text "T", the run ends in `SUMMARY_VIEW` carrying all three artifacts, after
the full in-order trace. -/
theorem runPipeline_sequence_spec_witness :
    runPipeline (fun _ => .ok demoSummary) (fun _ => .ok ⟨[], []⟩)
        (fun _ => .ok ⟨[demoTopic]⟩) "T" initAppSt =
      ({ initAppSt with appState := .SUMMARY_VIEW, summaryData := some demoSummary,
                        kgData := some ⟨[], []⟩,
                        topics := (⟨[demoTopic]⟩ : TopicExtractionResponse).topics,
                        loadingMsg := "Deconstructing Lecture Architecture..." },
        [(.summary, "T"), (.knowledgeGraph, "T"), (.topics, "T")], none) :=
  (runPipeline_sequence_spec (fun _ => .ok demoSummary) (fun _ => .ok ⟨[], []⟩)
      (fun _ => .ok ⟨[demoTopic]⟩) "T" initAppSt (by decide)).2.1
    demoSummary ⟨[], []⟩ ⟨[demoTopic]⟩ rfl rfl rfl

/-- Counterexample to C2 as stated: a quiz payload whose single question
declares `correct_answer = "C"` while listing only the options "A" and "B"
is not rejected anywhere — `generateQuiz` returns the parsed payload
unchanged and `handleStartQuiz` installs its `quiz` array as the live
session's questions, so a question violating
`correct_answer ∈ options` reaches the quiz session. -/
theorem invalid_quiz_reaches_session_cex :
    generateQuizResult badQuizResponse = badQuizResponse ∧
    (handleStartQuiz (fun _ => .ok badQuizResponse) demoTopic initAppSt).currentQuiz =
      badQuizResponse.quiz ∧
    (handleStartQuiz (fun _ => .ok badQuizResponse) demoTopic initAppSt).appState =
      AppState.QUIZ_VIEW ∧
    ∀ q ∈ badQuizResponse.quiz, q.correct_answer ∉ q.options :=
  ⟨rfl, rfl, rfl, by decide⟩

/-- C2, amended: no post-parse validator exists.  `generateQuiz` returns
every structurally-parsed payload unchanged (part_003 line 174) — the
`correct_answer ∈ options` constraint is only requested from the model via
the system instruction, never checked — and `handleStartQuiz` installs the
payload's `quiz` array verbatim as session data, opening the quiz view,
whether or not the constraint holds. -/
theorem generateQuiz_no_validation
    (generateQuiz : Topic → Except JsError QuizResponse) (topic : Topic)
    (s : AppSt) (resp : QuizResponse) (h : generateQuiz topic = .ok resp) :
    generateQuizResult resp = resp ∧
    handleStartQuiz generateQuiz topic s =
      { s with appState := .QUIZ_VIEW, selectedTopic := some topic,
               currentQuiz := resp.quiz,
               loadingMsg := "Generating Mastery Assessment for \"" ++
                 topic.title ++ "\"..." } := by
  refine ⟨rfl, ?_⟩
  simp only [handleStartQuiz, h]

/-- Witness for C2 (amended): the invalid demonstration payload is accepted
and installed verbatim. -/
theorem generateQuiz_no_validation_witness :
    generateQuizResult badQuizResponse = badQuizResponse ∧
    handleStartQuiz (fun _ => .ok badQuizResponse) demoTopic initAppSt =
      { initAppSt with appState := .QUIZ_VIEW, selectedTopic := some demoTopic,
                       currentQuiz := badQuizResponse.quiz,
                       loadingMsg := "Generating Mastery Assessment for \"" ++
                         demoTopic.title ++ "\"..." } :=
  generateQuiz_no_validation (fun _ => .ok badQuizResponse) demoTopic initAppSt
    badQuizResponse rfl

end Lectra
